import Mathlib

set_option maxRecDepth 100000

/-!
Verification of the OpenDTU battery-state estimation and power-limiting
control loop.  The definitions below are a shallow embedding of
`src/PowerLimiter.cpp`, `src/BatteryGuard.cpp` and `include/BatteryGuard.h`:
`float`/`double` values are modelled as rationals, `uint32_t` millisecond
clocks as naturals with explicit wrap-around subtraction, and the inverter
command sink as a list of emitted commands.
-/

/-- Wrap-around subtraction of two `uint32_t` millisecond counters, as computed
by the C expression `a - b` on `uint32_t`. -/
def msub (a b : ℕ) : ℕ := (a + 2 ^ 32 - b % 2 ^ 32) % 2 ^ 32

/-- C `round`: round half away from zero, as applied to the power meter total. -/
def roundAway (q : ℚ) : ℤ := if 0 ≤ q then ⌊q + 1 / 2⌋ else ⌈q - 1 / 2⌉

/-- C truncation toward zero, as performed by an assignment of a
floating-point expression to an `int32_t`. -/
def ftrunc (q : ℚ) : ℤ := if 0 ≤ q then ⌊q⌋ else ⌈q⌉

/-- C `std::abs` on floating-point values. -/
def fabs (q : ℚ) : ℚ := if q < 0 then -q else q

/-- `plStates` from `include/PowerLimiter.h`. -/
inductive plStates where
  | SHUTDOWN
  | ACTIVE
deriving DecidableEq, Repr

/-- `batDrainStrategy` from `include/PowerLimiter.h`. -/
inductive batDrainStrategy where
  | EMPTY_WHEN_FULL
  | EMPTY_AT_NIGHT
deriving DecidableEq, Repr

/-- The slice of `CONFIG_T` read by the power limiter. -/
structure CONFIG_T where
  PowerMeter_Enabled : Bool
  PowerLimiter_Enabled : Bool
  PowerLimiter_Interval : ℕ
  PowerLimiter_LowerPowerLimit : ℤ
  PowerLimiter_UpperPowerLimit : ℤ
  PowerLimiter_TargetPowerConsumption : ℤ
  PowerLimiter_TargetPowerConsumptionHysteresis : ℤ
  PowerLimiter_IsInverterBehindPowerMeter : Bool
  PowerLimiter_BatteryDrainStategy : batDrainStrategy
  PowerLimiter_SolarPassThroughEnabled : Bool
  Vedirect_Enabled : Bool
  Battery_Enabled : Bool
  PowerLimiter_BatterySocStartThreshold : ℚ
  PowerLimiter_BatterySocStopThreshold : ℚ
  PowerLimiter_VoltageStartThreshold : ℚ
  PowerLimiter_VoltageStopThreshold : ℚ
  PowerLimiter_VoltageLoadCorrectionFactor : ℚ
deriving DecidableEq, Repr

/-- External telemetry read during one tick of `PowerLimiterClass::loop`:
the clock, radio state, inverter statistics, the VE.Direct frame, the power
meter and the battery interface. -/
structure PLEnv where
  millis : ℕ
  radioIdle : Bool
  inverterReachable : Bool
  isProducing : Bool
  statsLastUpdate : ℕ
  dcVoltage : ℚ
  acPower : ℚ
  efficiency : ℚ
  powerTotal : ℚ
  lastPowerMeterUpdate : ℕ
  stateOfCharge : ℚ
  stateOfChargeLastUpdate : ℕ
  veCS : ℕ
  vePPV : ℤ
deriving DecidableEq, Repr

/-- Mutable members of `PowerLimiterClass`. -/
structure PLState where
  lastCommandSent : ℕ
  lastLoop : ℕ
  lastRequestedPowerLimit : ℤ
  plState : plStates
  batteryDischargeEnabled : Bool
  mpptDirectFeedToGridPercent : ℚ
deriving DecidableEq, Repr

/-- Commands emitted to the inverter command sink:
`sendPowerControlRequest` (start/stop) and
`sendActivePowerControlRequest` (absolute non-persistent limit). -/
inductive InverterCommand where
  | powerControl (start : Bool)
  | activePowerLimit (limit : ℤ)
deriving DecidableEq, Repr

namespace PowerLimiterClass

/-- `PowerLimiterClass::canUseDirectSolarPower`, PowerLimiter.cpp lines 133-148. -/
def canUseDirectSolarPower (cfg : CONFIG_T) (e : PLEnv) : Bool :=
  if ¬cfg.PowerLimiter_SolarPassThroughEnabled ∨ ¬cfg.Vedirect_Enabled then
    false
  else if e.vePPV < 20 then
    false
  else
    true

/-- `PowerLimiterClass::getDirectSolarPower`, PowerLimiter.cpp lines 239-246. -/
def getDirectSolarPower (cfg : CONFIG_T) (e : PLEnv) : ℤ :=
  if ¬canUseDirectSolarPower cfg e then 0 else e.vePPV

/-- `PowerLimiterClass::getLoadCorrectedVoltage`, PowerLimiter.cpp lines 248-260. -/
def getLoadCorrectedVoltage (cfg : CONFIG_T) (e : PLEnv) : ℚ :=
  if e.dcVoltage ≤ 0 then 0
  else e.dcVoltage + e.acPower * cfg.PowerLimiter_VoltageLoadCorrectionFactor

/-- `PowerLimiterClass::isStartThresholdReached`, PowerLimiter.cpp lines 262-281. -/
def isStartThresholdReached (cfg : CONFIG_T) (e : PLEnv) : Bool :=
  if cfg.Battery_Enabled
      ∧ cfg.PowerLimiter_BatterySocStartThreshold > 0
      ∧ msub e.millis e.stateOfChargeLastUpdate < 60000
      ∧ e.stateOfCharge ≥ cfg.PowerLimiter_BatterySocStartThreshold then
    true
  else if cfg.PowerLimiter_VoltageStartThreshold ≤ 0 then
    false
  else
    getLoadCorrectedVoltage cfg e ≥ cfg.PowerLimiter_VoltageStartThreshold

/-- `PowerLimiterClass::isStopThresholdReached`, PowerLimiter.cpp lines 283-302. -/
def isStopThresholdReached (cfg : CONFIG_T) (e : PLEnv) : Bool :=
  if cfg.Battery_Enabled
      ∧ cfg.PowerLimiter_BatterySocStopThreshold > 0
      ∧ msub e.millis e.stateOfChargeLastUpdate < 60000
      ∧ e.stateOfCharge ≤ cfg.PowerLimiter_BatterySocStopThreshold then
    true
  else if cfg.PowerLimiter_VoltageStopThreshold ≤ 0 then
    false
  else
    getLoadCorrectedVoltage cfg e ≤ cfg.PowerLimiter_VoltageStopThreshold

/-- `PowerLimiterClass::calcPowerLimit`, PowerLimiter.cpp lines 153-205. -/
def calcPowerLimit (cfg : CONFIG_T) (e : PLEnv) (s : PLState)
    (consumeSolarPowerOnly : Bool) : ℤ :=
  let newPowerLimit := roundAway e.powerTotal
  if msub e.millis e.lastPowerMeterUpdate > 30 * 1000 then
    cfg.PowerLimiter_LowerPowerLimit
  else if newPowerLimit ≥ cfg.PowerLimiter_TargetPowerConsumption
            - cfg.PowerLimiter_TargetPowerConsumptionHysteresis
          ∧ newPowerLimit ≤ cfg.PowerLimiter_TargetPowerConsumption
            + cfg.PowerLimiter_TargetPowerConsumptionHysteresis then
    s.lastRequestedPowerLimit
  else
    let newPowerLimit :=
      if cfg.PowerLimiter_IsInverterBehindPowerMeter then
        newPowerLimit + s.lastRequestedPowerLimit
      else newPowerLimit
    let victronChargePower := getDirectSolarPower cfg e
    let adjustedVictronChargePower :=
      ftrunc ((victronChargePower : ℚ) *
        (if e.efficiency > 0 then e.efficiency / 100 else 1))
    let newPowerLimit := newPowerLimit - cfg.PowerLimiter_TargetPowerConsumption
    let upperPowerLimit :=
      if consumeSolarPowerOnly
          ∧ cfg.PowerLimiter_UpperPowerLimit > adjustedVictronChargePower then
        adjustedVictronChargePower
      else cfg.PowerLimiter_UpperPowerLimit
    if newPowerLimit > upperPowerLimit then upperPowerLimit else newPowerLimit

/-- `PowerLimiterClass::setNewPowerLimit`, PowerLimiter.cpp lines 207-237.
Returns the list of commands sent to the inverter together with the updated
object state. -/
def setNewPowerLimit (cfg : CONFIG_T) (e : PLEnv) (s : PLState)
    (newPowerLimit : ℤ) : List InverterCommand × PLState :=
  let starting := ¬e.isProducing ∧ newPowerLimit > cfg.PowerLimiter_LowerPowerLimit
  let stopping := newPowerLimit < cfg.PowerLimiter_LowerPowerLimit ∧ e.isProducing
  let clampedLimit :=
    if newPowerLimit < cfg.PowerLimiter_LowerPowerLimit then
      cfg.PowerLimiter_LowerPowerLimit
    else newPowerLimit
  let lastCommandSent :=
    if starting ∨ stopping then e.millis else s.lastCommandSent
  let sendLimit := s.lastRequestedPowerLimit ≠ clampedLimit
      ∧ clampedLimit > cfg.PowerLimiter_LowerPowerLimit
      ∧ clampedLimit < cfg.PowerLimiter_UpperPowerLimit
  ((if starting then [InverterCommand.powerControl true] else [])
    ++ (if stopping then [InverterCommand.powerControl false] else [])
    ++ (if sendLimit then [InverterCommand.activePowerLimit clampedLimit] else []),
   { s with
     lastCommandSent := lastCommandSent,
     lastRequestedPowerLimit :=
       if sendLimit then clampedLimit else s.lastRequestedPowerLimit })

/-- Discharge-mode evaluation of `PowerLimiterClass::loop`,
PowerLimiter.cpp lines 81-93: the stop threshold disables discharge;
otherwise unusable direct solar or the `EMPTY_AT_NIGHT` strategy forces it
on; finally the start threshold under `EMPTY_WHEN_FULL` enables it. -/
def updateBatteryDischargeEnabled (cfg : CONFIG_T) (e : PLEnv) (s : PLState) :
    PLState :=
  let s :=
    if isStopThresholdReached cfg e then
      { s with batteryDischargeEnabled := false }
    else if ¬canUseDirectSolarPower cfg e
        ∨ cfg.PowerLimiter_BatteryDrainStategy = batDrainStrategy.EMPTY_AT_NIGHT then
      { s with batteryDischargeEnabled := true }
    else s
  if isStartThresholdReached cfg e
      ∧ cfg.PowerLimiter_BatteryDrainStategy = batDrainStrategy.EMPTY_WHEN_FULL then
    { s with batteryDischargeEnabled := true }
  else s

/-- Solar absorption-phase ramp of `PowerLimiterClass::loop`,
PowerLimiter.cpp lines 96-107: ramp the direct-feed percentage up by 0.01
per tick toward 0.9 in absorption phase (CS = 4), else down toward 0. -/
def updateMpptPercent (e : PLEnv) (s : PLState) : PLState :=
  { s with mpptDirectFeedToGridPercent :=
      if e.veCS = 4 then
        if s.mpptDirectFeedToGridPercent + 1 / 100 > 9 / 10 then 9 / 10
        else s.mpptDirectFeedToGridPercent + 1 / 100
      else
        if s.mpptDirectFeedToGridPercent - 1 / 100 < 0 then 0
        else s.mpptDirectFeedToGridPercent - 1 / 100 }

/-- Body of `PowerLimiterClass::loop` after all early-return guards,
PowerLimiter.cpp lines 76-122: leave `SHUTDOWN`, update the discharge
flag and the solar ramp, compute the limit and issue commands with the
larger of the computed limit and the ramped direct-solar power. -/
def loopMain (cfg : CONFIG_T) (e : PLEnv) (s : PLState) :
    PLState × List InverterCommand :=
  let s := if s.plState = plStates.SHUTDOWN then
      { s with plState := plStates.ACTIVE }
    else s
  let s := updateBatteryDischargeEnabled cfg e s
  let s := updateMpptPercent e s
  let mpptDirectFeedToGridPower :=
    ftrunc (s.mpptDirectFeedToGridPercent * (e.vePPV : ℚ))
  let newPowerLimit := calcPowerLimit cfg e s (!s.batteryDischargeEnabled)
  if newPowerLimit > mpptDirectFeedToGridPower then
    let r := setNewPowerLimit cfg e s newPowerLimit
    (r.2, r.1)
  else
    let r := setNewPowerLimit cfg e s mpptDirectFeedToGridPower
    (r.2, r.1)

/-- `PowerLimiterClass::loop`, PowerLimiter.cpp lines 25-123.  Returns the
updated object state together with the commands sent to the inverter during
the tick. -/
def loop (cfg : CONFIG_T) (e : PLEnv) (s : PLState) :
    PLState × List InverterCommand :=
  if ¬cfg.PowerMeter_Enabled ∨ ¬e.radioIdle
      ∨ msub e.millis s.lastCommandSent < cfg.PowerLimiter_Interval * 1000
      ∨ msub e.millis s.lastLoop < cfg.PowerLimiter_Interval * 1000 then
    (s, [])
  else
    let s := { s with lastLoop := e.millis }
    if ¬e.inverterReachable then (s, [])
    else if ¬cfg.PowerLimiter_Enabled ∧ s.plState ≠ plStates.SHUTDOWN then
      if e.isProducing then (s, [InverterCommand.powerControl false])
      else ({ s with plState := plStates.SHUTDOWN }, [])
    else if ¬cfg.PowerLimiter_Enabled then (s, [])
    else if msub e.millis e.statsLastUpdate > 10000 then (s, [])
    else
      loopMain cfg e s

end PowerLimiterClass

/-- C1: if the power meter's last update is more than 30000 ms before the
current time, `calcPowerLimit` returns exactly the configured
`PowerLimiter_LowerPowerLimit`, regardless of all other inputs and of the
controller's internal state. -/
theorem calcPowerLimit_stale_meter_returns_lower (cfg : CONFIG_T) (e : PLEnv)
    (s : PLState) (b : Bool)
    (hstale : msub e.millis e.lastPowerMeterUpdate > 30 * 1000) :
    PowerLimiterClass.calcPowerLimit cfg e s b = cfg.PowerLimiter_LowerPowerLimit := by
  unfold PowerLimiterClass.calcPowerLimit
  simp [hstale]

/-- Witness for C1: a concrete stale-meter tick with arbitrary other inputs
returns the configured lower power limit (42 W). -/
theorem calcPowerLimit_stale_meter_returns_lower_witness :
    msub 40001 0 > 30 * 1000 ∧
    PowerLimiterClass.calcPowerLimit
      { PowerMeter_Enabled := true, PowerLimiter_Enabled := true,
        PowerLimiter_Interval := 15, PowerLimiter_LowerPowerLimit := 42,
        PowerLimiter_UpperPowerLimit := 800,
        PowerLimiter_TargetPowerConsumption := 0,
        PowerLimiter_TargetPowerConsumptionHysteresis := 0,
        PowerLimiter_IsInverterBehindPowerMeter := true,
        PowerLimiter_BatteryDrainStategy := batDrainStrategy.EMPTY_WHEN_FULL,
        PowerLimiter_SolarPassThroughEnabled := true, Vedirect_Enabled := true,
        Battery_Enabled := true, PowerLimiter_BatterySocStartThreshold := 90,
        PowerLimiter_BatterySocStopThreshold := 20,
        PowerLimiter_VoltageStartThreshold := 50,
        PowerLimiter_VoltageStopThreshold := 46,
        PowerLimiter_VoltageLoadCorrectionFactor := 1 / 1000 }
      { millis := 40001, radioIdle := true, inverterReachable := true,
        isProducing := true, statsLastUpdate := 40000, dcVoltage := 48,
        acPower := 300, efficiency := 95, powerTotal := 1234,
        lastPowerMeterUpdate := 0, stateOfCharge := 55,
        stateOfChargeLastUpdate := 40000, veCS := 4, vePPV := 600 }
      { lastCommandSent := 0, lastLoop := 0, lastRequestedPowerLimit := 500,
        plState := plStates.ACTIVE, batteryDischargeEnabled := true,
        mpptDirectFeedToGridPercent := 1 / 2 }
      false = 42 :=
  ⟨by decide, calcPowerLimit_stale_meter_returns_lower _ _ _ _ (by decide)⟩

/-- Modelled from the spec: the `WeightedAVG<T>` template of `Statistic.h` is
not present in the sources; §3 of the spec describes it as a record
{average, last, min, max, count, weight} where `addNumber` seeds
average/min/max/last with the first sample and afterwards updates
`average := average*(1-w) + sample*w`, tracking count/last/min/max. -/
structure WeightedAVG where
  average : ℚ
  lastV : ℚ
  minV : ℚ
  maxV : ℚ
  count : ℕ
  weight : ℚ
deriving DecidableEq, Repr

namespace WeightedAVG

/-- Modelled from the spec: `WeightedAVG::addNumber` (Statistic.h is not in
the sources): the first sample seeds average/min/max/last directly, later
samples update the exponentially smoothed average and the count/last/min/max
trackers. -/
def addNumber (a : WeightedAVG) (v : ℚ) : WeightedAVG :=
  if a.count = 0 then
    { a with average := v, lastV := v, minV := v, maxV := v, count := 1 }
  else
    { a with
      average := a.average * (1 - a.weight) + v * a.weight,
      lastV := v,
      minV := min a.minV v,
      maxV := max a.maxV v,
      count := a.count + 1 }

/-- Modelled from the spec: `WeightedAVG::getCounts`. -/
def getCounts (a : WeightedAVG) : ℕ := a.count

/-- Modelled from the spec: `WeightedAVG::getAverage`. -/
def getAverage (a : WeightedAVG) : ℚ := a.average

theorem addNumber_count (a : WeightedAVG) (v : ℚ) :
    (a.addNumber v).count = if a.count = 0 then 1 else a.count + 1 := by
  unfold addNumber
  split <;> simp_all

theorem addNumber_ne (a : WeightedAVG) (v : ℚ) : a.addNumber v ≠ a := by
  intro h
  have hc := congrArg WeightedAVG.count h
  rw [addNumber_count] at hc
  split at hc <;> omega

end WeightedAVG

/-- Mutable members of `BatteryGuardClass` (include/BatteryGuard.h
lines 37-60) that the estimation functions touch. -/
structure BatteryGuardState where
  battVoltage : ℚ
  battCurrent : ℚ
  battMillis : ℕ
  battPeriod : WeightedAVG
  battVoltageAVG : WeightedAVG
  openCircuitVoltageAVG : WeightedAVG
  resistanceFromConfig : ℚ
  notAvailableCounter : ℕ
  resistanceFromCalcAVG : WeightedAVG
  firstOfTwoAvailable : Bool
  minMaxAvailable : Bool
  pFirstVolt : ℚ × ℚ
  pMaxVolt : ℚ × ℚ
  pMinVolt : ℚ × ℚ
  lastMinMaxMillis : ℕ
  useBatteryGuard : Bool
deriving DecidableEq, Repr

namespace BatteryGuardClass

/-- `_minDiffVoltage = 0.05f`, include/BatteryGuard.h line 55. -/
def minDiffVoltage : ℚ := 1 / 20

/-- `BatteryGuardClass::isDataValid`, include/BatteryGuard.h line 35:
battery data is valid if not older than 30 seconds. -/
def isDataValid (s : BatteryGuardState) (now : ℕ) : Bool :=
  msub now s.battMillis < 30 * 1000

/-- Settling filter of `BatteryGuardClass::calculateInternalResistance`,
BatteryGuard.cpp lines 179-191: either the incoming sample replaces the
pending first sample (`none`), or the settled pair is averaged into one
point and the pending slot is cleared (`some` midpoint). -/
def settlePair (s : BatteryGuardState) (nowVoltage nowCurrent : ℚ) :
    BatteryGuardState × Option (ℚ × ℚ) :=
  if ¬s.firstOfTwoAvailable
      ∨ fabs (s.pFirstVolt.1 - nowVoltage) > 5 / 1000
      ∨ fabs (s.pFirstVolt.2 - nowCurrent) > 2 / 10 then
    ({ s with pFirstVolt := (nowVoltage, nowCurrent), firstOfTwoAvailable := true },
     none)
  else
    ({ s with firstOfTwoAvailable := false },
     some ((nowVoltage + s.pFirstVolt.1) / 2, (nowCurrent + s.pFirstVolt.2) / 2))

/-- Min/max accumulation of `BatteryGuardClass::calculateInternalResistance`,
BatteryGuard.cpp lines 190-199: store the averaged point in the min or max
buffer. -/
def storeMinMax (s : BatteryGuardState) (now : ℕ) (avgVolt : ℚ × ℚ) :
    BatteryGuardState :=
  if ¬s.minMaxAvailable then
    { s with pMinVolt := avgVolt, pMaxVolt := avgVolt,
             lastMinMaxMillis := now, minMaxAvailable := true }
  else
    let s := if avgVolt.1 < s.pMinVolt.1 then { s with pMinVolt := avgVolt } else s
    if avgVolt.1 > s.pMaxVolt.1 then { s with pMaxVolt := avgVolt } else s

/-- Window-close part of `BatteryGuardClass::calculateInternalResistance`,
BatteryGuard.cpp lines 201-225: after 30 s the min/max window is closed,
and if the voltage spread suffices the resistance candidate is computed and
gated into the weighted average. -/
def closeWindow (s : BatteryGuardState) (now : ℕ) : BatteryGuardState × Bool :=
  if ¬s.minMaxAvailable ∨ msub now s.lastMinMaxMillis < 30 * 1000 then
    (s, false)
  else
    let s := { s with minMaxAvailable := false }
    if s.pMaxVolt.1 - s.pMinVolt.1 ≥ minDiffVoltage then
      let resistor := fabs ((s.pMaxVolt.1 - s.pMinVolt.1) / (s.pMaxVolt.2 - s.pMinVolt.2))
      let s :=
        if s.resistanceFromCalcAVG.getCounts < 10 then
          { s with resistanceFromCalcAVG := s.resistanceFromCalcAVG.addNumber resistor }
        else if resistor > s.resistanceFromCalcAVG.getAverage / 2
            ∧ resistor < s.resistanceFromCalcAVG.getAverage * 2 then
          { s with resistanceFromCalcAVG := s.resistanceFromCalcAVG.addNumber resistor }
        else s
      (s, true)
    else (s, false)

/-- `BatteryGuardClass::calculateInternalResistance`, BatteryGuard.cpp
lines 177-226, split into the three stages above.  `now` is the ambient
`millis()` clock. -/
def calculateInternalResistance (s : BatteryGuardState) (now : ℕ)
    (nowVoltage nowCurrent : ℚ) : BatteryGuardState × Bool :=
  match settlePair s nowVoltage nowCurrent with
  | (s1, none) => (s1, false)
  | (s1, some avgVolt) => closeWindow (storeMinMax s1 now avgVolt) now

/-- `BatteryGuardClass::getInternalResistance`, BatteryGuard.cpp lines 153-157. -/
def getInternalResistance (s : BatteryGuardState) : Option ℚ :=
  if s.resistanceFromCalcAVG.getCounts > 4 then some s.resistanceFromCalcAVG.getAverage
  else if s.resistanceFromConfig ≠ 0 then some s.resistanceFromConfig
  else none

/-- `BatteryGuardClass::calculateOpenCircuitVoltage`, BatteryGuard.cpp
lines 138-147. -/
def calculateOpenCircuitVoltage (s : BatteryGuardState)
    (nowVoltage nowCurrent : ℚ) : BatteryGuardState × Bool :=
  match getInternalResistance s with
  | some r =>
    ({ s with openCircuitVoltageAVG :=
        s.openCircuitVoltageAVG.addNumber (nowVoltage - nowCurrent * r) }, true)
  | none => (s, false)

/-- `BatteryGuardClass::getOpenCircuitVoltage`, BatteryGuard.cpp
lines 163-170.  `now` is the ambient `millis()` clock. -/
def getOpenCircuitVoltage (s : BatteryGuardState) (now : ℕ) :
    Option ℚ × BatteryGuardState :=
  if s.openCircuitVoltageAVG.getCounts > 0 ∧ isDataValid s now then
    (some s.openCircuitVoltageAVG.getAverage, s)
  else
    (none, { s with notAvailableCounter := s.notAvailableCounter + 1 })

/-- `BatteryGuardClass::updateBatteryValues`, BatteryGuard.cpp lines 118-131.
`now` is the ambient `millis()` clock used inside
`calculateInternalResistance`. -/
def updateBatteryValues (s : BatteryGuardState) (voltage current : ℚ)
    (millisStamp now : ℕ) : BatteryGuardState :=
  if s.useBatteryGuard ∧ voltage ≥ 0 then
    let s :=
      if s.battMillis ≠ 0 ∧ voltage ≠ s.battVoltage then
        { s with battPeriod := s.battPeriod.addNumber ((msub millisStamp s.battMillis : ℕ) : ℚ) }
      else s
    let s := { s with battVoltage := voltage, battCurrent := current,
                      battMillis := millisStamp }
    let s := { s with battVoltageAVG := s.battVoltageAVG.addNumber s.battVoltage }
    let s := (calculateInternalResistance s now s.battVoltage s.battCurrent).1
    (calculateOpenCircuitVoltage s s.battVoltage s.battCurrent).1
  else s

end BatteryGuardClass

/-- Helper: `storeMinMax` always leaves a window available. -/
theorem storeMinMax_minMaxAvailable (s : BatteryGuardState) (now : ℕ)
    (p : ℚ × ℚ) : (BatteryGuardClass.storeMinMax s now p).minMaxAvailable = true := by
  unfold BatteryGuardClass.storeMinMax
  split_ifs <;> simp_all [apply_ite (f := BatteryGuardState.minMaxAvailable)]

/-- Helper: `storeMinMax` does not touch the resistance average. -/
theorem storeMinMax_resistanceFromCalcAVG (s : BatteryGuardState) (now : ℕ)
    (p : ℚ × ℚ) :
    (BatteryGuardClass.storeMinMax s now p).resistanceFromCalcAVG
      = s.resistanceFromCalcAVG := by
  unfold BatteryGuardClass.storeMinMax
  split_ifs <;> simp_all [apply_ite (f := BatteryGuardState.resistanceFromCalcAVG)]

/-- C8: while a pending first sample `(V1, I1)` exists, an incoming sample
`(V2, I2)` is treated as settled and averaged into the midpoint, clearing
the pending slot, if and only if `|V1 - V2| ≤ 0.005` and `|I1 - I2| ≤ 0.2`;
otherwise `(V2, I2)` becomes the new pending sample and the call produces
no averaged pair and changes nothing else. -/
theorem settle_pair_filter (s : BatteryGuardState) (now : ℕ) (V2 I2 : ℚ)
    (h : s.firstOfTwoAvailable = true) :
    ((BatteryGuardClass.settlePair s V2 I2).2.isSome
        ↔ fabs (s.pFirstVolt.1 - V2) ≤ 5 / 1000 ∧ fabs (s.pFirstVolt.2 - I2) ≤ 2 / 10)
    ∧ (fabs (s.pFirstVolt.1 - V2) ≤ 5 / 1000 ∧ fabs (s.pFirstVolt.2 - I2) ≤ 2 / 10 →
        BatteryGuardClass.settlePair s V2 I2
          = ({ s with firstOfTwoAvailable := false },
             some ((V2 + s.pFirstVolt.1) / 2, (I2 + s.pFirstVolt.2) / 2)))
    ∧ (¬(fabs (s.pFirstVolt.1 - V2) ≤ 5 / 1000 ∧ fabs (s.pFirstVolt.2 - I2) ≤ 2 / 10) →
        BatteryGuardClass.calculateInternalResistance s now V2 I2
          = ({ s with pFirstVolt := (V2, I2), firstOfTwoAvailable := true }, false)) := by
  by_cases hset : fabs (s.pFirstVolt.1 - V2) ≤ 5 / 1000 ∧ fabs (s.pFirstVolt.2 - I2) ≤ 2 / 10
  · have hcond : ¬(¬s.firstOfTwoAvailable
        ∨ fabs (s.pFirstVolt.1 - V2) > 5 / 1000 ∨ fabs (s.pFirstVolt.2 - I2) > 2 / 10) := by
      simp only [not_or, not_lt, h, not_not]
      exact ⟨by simp, hset.1, hset.2⟩
    have hsp : BatteryGuardClass.settlePair s V2 I2
        = ({ s with firstOfTwoAvailable := false },
           some ((V2 + s.pFirstVolt.1) / 2, (I2 + s.pFirstVolt.2) / 2)) := by
      unfold BatteryGuardClass.settlePair
      rw [if_neg hcond]
    refine ⟨?_, fun _ => hsp, fun hc => absurd hset hc⟩
    rw [hsp]
    simp [hset]
  · have hcond : (¬s.firstOfTwoAvailable
        ∨ fabs (s.pFirstVolt.1 - V2) > 5 / 1000 ∨ fabs (s.pFirstVolt.2 - I2) > 2 / 10) := by
      rcases not_and_or.mp hset with h1 | h2
      · exact Or.inr (Or.inl (not_le.mp h1))
      · exact Or.inr (Or.inr (not_le.mp h2))
    have hsp : BatteryGuardClass.settlePair s V2 I2
        = ({ s with pFirstVolt := (V2, I2), firstOfTwoAvailable := true }, none) := by
      unfold BatteryGuardClass.settlePair
      rw [if_pos hcond]
    refine ⟨?_, fun hc => absurd hc hset, fun _ => ?_⟩
    · rw [hsp]
      simp [hset]
    · unfold BatteryGuardClass.calculateInternalResistance
      rw [hsp]

/-- Helper: the settled branch of the settling filter. -/
theorem settlePair_eq_settled (s : BatteryGuardState) (V2 I2 : ℚ)
    (h1 : s.firstOfTwoAvailable = true)
    (h2 : fabs (s.pFirstVolt.1 - V2) ≤ 5 / 1000)
    (h3 : fabs (s.pFirstVolt.2 - I2) ≤ 2 / 10) :
    BatteryGuardClass.settlePair s V2 I2
      = ({ s with firstOfTwoAvailable := false },
         some ((V2 + s.pFirstVolt.1) / 2, (I2 + s.pFirstVolt.2) / 2)) := by
  unfold BatteryGuardClass.settlePair
  rw [if_neg]
  simp only [not_or, not_lt, not_not, h1]
  exact ⟨by simp, h2, h3⟩

/-- C6 (amended): when a resistance candidate `r` is computed from a closed
min/max window and the weighted resistance average already holds at least 10
samples with average `R`, the candidate is incorporated into the weighted
average if and only if `R/2 < r < R*2` (strict bounds); otherwise the
weighted average is left unchanged. -/
theorem resistance_plausibility_gate (s : BatteryGuardState) (now : ℕ)
    (V2 I2 : ℚ) (s2 : BatteryGuardState)
    (hs2 : s2 = BatteryGuardClass.storeMinMax { s with firstOfTwoAvailable := false }
        now ((V2 + s.pFirstVolt.1) / 2, (I2 + s.pFirstVolt.2) / 2))
    (r : ℚ)
    (hr : r = fabs ((s2.pMaxVolt.1 - s2.pMinVolt.1) / (s2.pMaxVolt.2 - s2.pMinVolt.2)))
    (h1 : s.firstOfTwoAvailable = true)
    (h2 : fabs (s.pFirstVolt.1 - V2) ≤ 5 / 1000)
    (h3 : fabs (s.pFirstVolt.2 - I2) ≤ 2 / 10)
    (h10 : 10 ≤ s.resistanceFromCalcAVG.getCounts)
    (hwin : ¬ msub now s2.lastMinMaxMillis < 30 * 1000)
    (hspread : s2.pMaxVolt.1 - s2.pMinVolt.1 ≥ BatteryGuardClass.minDiffVoltage) :
    (BatteryGuardClass.calculateInternalResistance s now V2 I2).1.resistanceFromCalcAVG
      = if r > s.resistanceFromCalcAVG.getAverage / 2
            ∧ r < s.resistanceFromCalcAVG.getAverage * 2 then
          s.resistanceFromCalcAVG.addNumber r
        else s.resistanceFromCalcAVG := by
  have hres2 : s2.resistanceFromCalcAVG = s.resistanceFromCalcAVG := by
    rw [hs2, storeMinMax_resistanceFromCalcAVG]
  have havail : s2.minMaxAvailable = true := by
    rw [hs2]; exact storeMinMax_minMaxAvailable _ _ _
  have hsp := settlePair_eq_settled s V2 I2 h1 h2 h3
  unfold BatteryGuardClass.calculateInternalResistance
  rw [hsp]
  dsimp only
  rw [← hs2]
  unfold BatteryGuardClass.closeWindow
  rw [if_neg (by simp [havail, hwin])]
  dsimp only
  rw [if_pos hspread, ← hr, ← hres2]
  rw [if_neg (by rw [hres2]; omega)]
  by_cases hgate : r > s2.resistanceFromCalcAVG.getAverage / 2
      ∧ r < s2.resistanceFromCalcAVG.getAverage * 2
  · rw [if_pos hgate, if_pos hgate]
  · rw [if_neg hgate, if_neg hgate]

/-- A concrete battery guard state used in several concrete evaluations:
a pending first sample at `(24.05 V, 8 A)`, a min/max window opened at
`millis = 0` holding `(24 V, 10 A)`, and a resistance average of
`0.05 Ω` built from 10 samples. -/
def bgSample : BatteryGuardState :=
  { battVoltage := 24, battCurrent := 10, battMillis := 0,
    battPeriod := { average := 1000, lastV := 1000, minV := 1000, maxV := 1000,
                    count := 1, weight := 1 / 20 },
    battVoltageAVG := { average := 24, lastV := 24, minV := 24, maxV := 24,
                        count := 1, weight := 1 / 5 },
    openCircuitVoltageAVG := { average := 24, lastV := 24, minV := 24, maxV := 24,
                               count := 1, weight := 1 / 5 },
    resistanceFromConfig := 0, notAvailableCounter := 0,
    resistanceFromCalcAVG := { average := 1 / 20, lastV := 1 / 20, minV := 1 / 20,
                               maxV := 1 / 20, count := 10, weight := 1 / 10 },
    firstOfTwoAvailable := true, minMaxAvailable := true,
    pFirstVolt := (481 / 20, 8), pMaxVolt := (24, 10), pMinVolt := (24, 10),
    lastMinMaxMillis := 0, useBatteryGuard := true }

/-- Counterexample to C6 as stated: with 10 samples and average
`R = 0.05 Ω`, the window closes on the candidate `r = 0.025 = R/2`, which
lies inside the claimed acceptance band `[R/2, R*2]`, yet the code (strict
comparison `resistor > average / 2`) leaves the weighted average unchanged. -/
theorem resistance_plausibility_gate_claim_false :
    (bgSample.resistanceFromCalcAVG.getAverage / 2 ≤ 1 / 40
      ∧ (1 : ℚ) / 40 ≤ bgSample.resistanceFromCalcAVG.getAverage * 2)
    ∧ 10 ≤ bgSample.resistanceFromCalcAVG.getCounts
    ∧ (BatteryGuardClass.storeMinMax { bgSample with firstOfTwoAvailable := false }
          30000 ((481 / 20 + bgSample.pFirstVolt.1) / 2, (8 + bgSample.pFirstVolt.2) / 2)).pMaxVolt
        = (481 / 20, 8)
    ∧ (BatteryGuardClass.calculateInternalResistance bgSample 30000 (481 / 20) 8).2 = true
    ∧ (BatteryGuardClass.calculateInternalResistance bgSample 30000 (481 / 20) 8).1.resistanceFromCalcAVG
        = bgSample.resistanceFromCalcAVG
    ∧ bgSample.resistanceFromCalcAVG.addNumber (1 / 40) ≠ bgSample.resistanceFromCalcAVG := by
  with_unfolding_all decide

/-- Witness for C6 (amended): with average `R = 1/30 Ω` the candidate
`r = 1/40` lies strictly inside `(R/2, R*2)` and is incorporated. -/
theorem resistance_plausibility_gate_witness :
    (BatteryGuardClass.calculateInternalResistance
        { bgSample with resistanceFromCalcAVG :=
            { average := 1 / 30, lastV := 1 / 30, minV := 1 / 30, maxV := 1 / 30,
              count := 10, weight := 1 / 10 } } 30000 (481 / 20) 8).1.resistanceFromCalcAVG
      = WeightedAVG.addNumber
          { average := 1 / 30, lastV := 1 / 30, minV := 1 / 30, maxV := 1 / 30,
            count := 10, weight := 1 / 10 } (1 / 40) := by
  have h := resistance_plausibility_gate
    { bgSample with resistanceFromCalcAVG :=
        { average := 1 / 30, lastV := 1 / 30, minV := 1 / 30, maxV := 1 / 30,
          count := 10, weight := 1 / 10 } } 30000 (481 / 20) 8 _ rfl (1 / 40)
    (by with_unfolding_all decide) (by with_unfolding_all decide)
    (by with_unfolding_all decide) (by with_unfolding_all decide)
    (by with_unfolding_all decide) (by with_unfolding_all decide)
    (by with_unfolding_all decide)
  rw [h, if_pos (by with_unfolding_all decide)]

/-- Witness for C8: at a settled pair (identical consecutive samples) the
filter emits the averaged point. -/
theorem settle_pair_filter_witness :
    (BatteryGuardClass.settlePair bgSample (481 / 20) 8).2.isSome := by
  exact (settle_pair_filter bgSample 0 (481 / 20) 8 (by with_unfolding_all decide)).1.mpr
    (by with_unfolding_all decide)

/-- C9: `getOpenCircuitVoltage` returns a value (the running OCV average)
if and only if at least one OCV sample has been recorded and the last
battery-data update lies within the 30000 ms staleness window of the query
time; otherwise it returns no value and increments the not-available
counter. -/
theorem getOpenCircuitVoltage_staleness (s : BatteryGuardState) (now : ℕ) :
    ((BatteryGuardClass.getOpenCircuitVoltage s now).1.isSome
        ↔ 0 < s.openCircuitVoltageAVG.getCounts ∧ msub now s.battMillis < 30 * 1000)
    ∧ ((BatteryGuardClass.getOpenCircuitVoltage s now).1 = none
        ∨ (BatteryGuardClass.getOpenCircuitVoltage s now).1
            = some s.openCircuitVoltageAVG.getAverage)
    ∧ ((BatteryGuardClass.getOpenCircuitVoltage s now).1 = none →
        (BatteryGuardClass.getOpenCircuitVoltage s now).2.notAvailableCounter
          = s.notAvailableCounter + 1) := by
  unfold BatteryGuardClass.getOpenCircuitVoltage
  split_ifs with h
  · refine ⟨?_, Or.inr rfl, by simp⟩
    simp only [Option.isSome_some, true_iff]
    exact ⟨h.1, by simpa [BatteryGuardClass.isDataValid] using h.2⟩
  · refine ⟨?_, Or.inl rfl, by simp⟩
    simp only [Option.isSome_none, Bool.false_eq_true, false_iff]
    intro hc
    exact h ⟨hc.1, by simpa [BatteryGuardClass.isDataValid] using hc.2⟩

/-- Witness for C9: a state with one OCV sample queried 1000 ms after the
last update yields a value; queried 30000 ms after, it yields none and the
counter increments. -/
theorem getOpenCircuitVoltage_staleness_witness :
    (BatteryGuardClass.getOpenCircuitVoltage bgSample 1000).1.isSome
    ∧ ¬(BatteryGuardClass.getOpenCircuitVoltage bgSample 30000).1.isSome := by
  constructor
  · exact (getOpenCircuitVoltage_staleness bgSample 1000).1.mpr (by decide)
  · intro hc
    have := (getOpenCircuitVoltage_staleness bgSample 30000).1.mp hc
    revert this
    decide

/-- C10: with absent DC voltage telemetry (`dcVoltage ≤ 0`),
`getLoadCorrectedVoltage` returns 0; hence whenever the voltage stop
threshold is configured positive and neither SoC-based check fires, the
stop threshold reads as reached and the start threshold as not reached, so
missing telemetry disables battery discharge rather than enabling it. -/
theorem missing_dc_voltage_disables_discharge (cfg : CONFIG_T) (e : PLEnv)
    (hdc : e.dcVoltage ≤ 0)
    (hstop : cfg.PowerLimiter_VoltageStopThreshold > 0)
    (hsoc1 : ¬(cfg.Battery_Enabled
        ∧ cfg.PowerLimiter_BatterySocStopThreshold > 0
        ∧ msub e.millis e.stateOfChargeLastUpdate < 60000
        ∧ e.stateOfCharge ≤ cfg.PowerLimiter_BatterySocStopThreshold))
    (hsoc2 : ¬(cfg.Battery_Enabled
        ∧ cfg.PowerLimiter_BatterySocStartThreshold > 0
        ∧ msub e.millis e.stateOfChargeLastUpdate < 60000
        ∧ e.stateOfCharge ≥ cfg.PowerLimiter_BatterySocStartThreshold)) :
    PowerLimiterClass.getLoadCorrectedVoltage cfg e = 0
    ∧ PowerLimiterClass.isStopThresholdReached cfg e = true
    ∧ PowerLimiterClass.isStartThresholdReached cfg e = false := by
  have hv : PowerLimiterClass.getLoadCorrectedVoltage cfg e = 0 := by
    unfold PowerLimiterClass.getLoadCorrectedVoltage
    rw [if_pos hdc]
  refine ⟨hv, ?_, ?_⟩
  · unfold PowerLimiterClass.isStopThresholdReached
    rw [if_neg hsoc1, if_neg (by exact not_le.mpr hstop), hv]
    simp
    linarith
  · unfold PowerLimiterClass.isStartThresholdReached
    rw [if_neg hsoc2]
    by_cases hst : cfg.PowerLimiter_VoltageStartThreshold ≤ 0
    · rw [if_pos hst]
    · rw [if_neg hst, hv]
      simp only [ge_iff_le, decide_eq_false_iff_not, not_le]
      linarith [not_le.mp hst]

/-- Witness for C10: a concrete config with a 46 V stop threshold, a 50 V
start threshold, SoC checks disabled, and an inverter reporting 0 V DC. -/
theorem missing_dc_voltage_disables_discharge_witness :
    PowerLimiterClass.getLoadCorrectedVoltage
      { PowerMeter_Enabled := true, PowerLimiter_Enabled := true,
        PowerLimiter_Interval := 15, PowerLimiter_LowerPowerLimit := 42,
        PowerLimiter_UpperPowerLimit := 800,
        PowerLimiter_TargetPowerConsumption := 0,
        PowerLimiter_TargetPowerConsumptionHysteresis := 0,
        PowerLimiter_IsInverterBehindPowerMeter := true,
        PowerLimiter_BatteryDrainStategy := batDrainStrategy.EMPTY_WHEN_FULL,
        PowerLimiter_SolarPassThroughEnabled := true, Vedirect_Enabled := true,
        Battery_Enabled := false, PowerLimiter_BatterySocStartThreshold := 90,
        PowerLimiter_BatterySocStopThreshold := 20,
        PowerLimiter_VoltageStartThreshold := 50,
        PowerLimiter_VoltageStopThreshold := 46,
        PowerLimiter_VoltageLoadCorrectionFactor := 1 / 1000 }
      { millis := 40001, radioIdle := true, inverterReachable := true,
        isProducing := true, statsLastUpdate := 40000, dcVoltage := 0,
        acPower := 300, efficiency := 95, powerTotal := 1234,
        lastPowerMeterUpdate := 40000, stateOfCharge := 55,
        stateOfChargeLastUpdate := 40000, veCS := 4, vePPV := 600 }
      = 0
    ∧ PowerLimiterClass.isStopThresholdReached
      { PowerMeter_Enabled := true, PowerLimiter_Enabled := true,
        PowerLimiter_Interval := 15, PowerLimiter_LowerPowerLimit := 42,
        PowerLimiter_UpperPowerLimit := 800,
        PowerLimiter_TargetPowerConsumption := 0,
        PowerLimiter_TargetPowerConsumptionHysteresis := 0,
        PowerLimiter_IsInverterBehindPowerMeter := true,
        PowerLimiter_BatteryDrainStategy := batDrainStrategy.EMPTY_WHEN_FULL,
        PowerLimiter_SolarPassThroughEnabled := true, Vedirect_Enabled := true,
        Battery_Enabled := false, PowerLimiter_BatterySocStartThreshold := 90,
        PowerLimiter_BatterySocStopThreshold := 20,
        PowerLimiter_VoltageStartThreshold := 50,
        PowerLimiter_VoltageStopThreshold := 46,
        PowerLimiter_VoltageLoadCorrectionFactor := 1 / 1000 }
      { millis := 40001, radioIdle := true, inverterReachable := true,
        isProducing := true, statsLastUpdate := 40000, dcVoltage := 0,
        acPower := 300, efficiency := 95, powerTotal := 1234,
        lastPowerMeterUpdate := 40000, stateOfCharge := 55,
        stateOfChargeLastUpdate := 40000, veCS := 4, vePPV := 600 }
      = true := by
  have h := missing_dc_voltage_disables_discharge
    { PowerMeter_Enabled := true, PowerLimiter_Enabled := true,
      PowerLimiter_Interval := 15, PowerLimiter_LowerPowerLimit := 42,
      PowerLimiter_UpperPowerLimit := 800,
      PowerLimiter_TargetPowerConsumption := 0,
      PowerLimiter_TargetPowerConsumptionHysteresis := 0,
      PowerLimiter_IsInverterBehindPowerMeter := true,
      PowerLimiter_BatteryDrainStategy := batDrainStrategy.EMPTY_WHEN_FULL,
      PowerLimiter_SolarPassThroughEnabled := true, Vedirect_Enabled := true,
      Battery_Enabled := false, PowerLimiter_BatterySocStartThreshold := 90,
      PowerLimiter_BatterySocStopThreshold := 20,
      PowerLimiter_VoltageStartThreshold := 50,
      PowerLimiter_VoltageStopThreshold := 46,
      PowerLimiter_VoltageLoadCorrectionFactor := 1 / 1000 }
    { millis := 40001, radioIdle := true, inverterReachable := true,
      isProducing := true, statsLastUpdate := 40000, dcVoltage := 0,
      acPower := 300, efficiency := 95, powerTotal := 1234,
      lastPowerMeterUpdate := 40000, stateOfCharge := 55,
      stateOfChargeLastUpdate := 40000, veCS := 4, vePPV := 600 }
    (by with_unfolding_all decide) (by with_unfolding_all decide)
    (by with_unfolding_all decide) (by with_unfolding_all decide)
  exact ⟨h.1, h.2.1⟩

/-- The preamble guards of `PowerLimiterClass::loop` (lines 30-45): power
meter enabled, radio idle, both interval timers elapsed, inverter present
and reachable. -/
def guardsPass (cfg : CONFIG_T) (e : PLEnv) (s : PLState) : Bool :=
  cfg.PowerMeter_Enabled && e.radioIdle
    && decide (¬ msub e.millis s.lastCommandSent < cfg.PowerLimiter_Interval * 1000)
    && decide (¬ msub e.millis s.lastLoop < cfg.PowerLimiter_Interval * 1000)
    && e.inverterReachable

/-- A tick reaches the discharge-mode evaluation of `loop` (line 81 ff.)
when the preamble guards pass, the limiter is enabled, and the inverter
statistics are fresh (line 67). -/
def reachesEvaluation (cfg : CONFIG_T) (e : PLEnv) (s : PLState) : Bool :=
  guardsPass cfg e s && cfg.PowerLimiter_Enabled
    && decide (¬ msub e.millis e.statsLastUpdate > 10000)

/-- A generally sensible configuration used for concrete evaluations:
50 W / 800 W power bounds, 500 W target ± 50 W hysteresis, interval 0,
SoC thresholds 20 % / 90 %, voltage thresholds disabled, solar
pass-through disabled. -/
def cfgSample : CONFIG_T :=
  { PowerMeter_Enabled := true, PowerLimiter_Enabled := true,
    PowerLimiter_Interval := 0, PowerLimiter_LowerPowerLimit := 50,
    PowerLimiter_UpperPowerLimit := 800,
    PowerLimiter_TargetPowerConsumption := 500,
    PowerLimiter_TargetPowerConsumptionHysteresis := 50,
    PowerLimiter_IsInverterBehindPowerMeter := false,
    PowerLimiter_BatteryDrainStategy := batDrainStrategy.EMPTY_WHEN_FULL,
    PowerLimiter_SolarPassThroughEnabled := false, Vedirect_Enabled := true,
    Battery_Enabled := true, PowerLimiter_BatterySocStartThreshold := 90,
    PowerLimiter_BatterySocStopThreshold := 20,
    PowerLimiter_VoltageStartThreshold := 0,
    PowerLimiter_VoltageStopThreshold := 0,
    PowerLimiter_VoltageLoadCorrectionFactor := 1 / 1000 }

/-- A telemetry snapshot with everything fresh and the inverter producing. -/
def envSample : PLEnv :=
  { millis := 1000000, radioIdle := true, inverterReachable := true,
    isProducing := true, statsLastUpdate := 1000000, dcVoltage := 48,
    acPower := 300, efficiency := 95, powerTotal := 2000,
    lastPowerMeterUpdate := 1000000, stateOfCharge := 55,
    stateOfChargeLastUpdate := 1000000, veCS := 0, vePPV := 0 }

/-- A controller state in `ACTIVE` with no limit requested yet. -/
def plSample : PLState :=
  { lastCommandSent := 0, lastLoop := 0, lastRequestedPowerLimit := 0,
    plState := plStates.ACTIVE, batteryDischargeEnabled := true,
    mpptDirectFeedToGridPercent := 0 }

/-- C2 (amended): every absolute power limit transmitted by
`setNewPowerLimit` satisfies `LowerPowerLimit ≤ limit ≤ UpperPowerLimit`
(in fact the strict bounds); when the requested limit is below
`LowerPowerLimit` it is clamped, so no absolute limit command is
transmitted at all, and a stop command is sent exactly when the inverter
is currently producing. -/
theorem setNewPowerLimit_bounds (cfg : CONFIG_T) (e : PLEnv) (s : PLState)
    (n : ℤ) :
    (∀ l, InverterCommand.activePowerLimit l
        ∈ (PowerLimiterClass.setNewPowerLimit cfg e s n).1 →
      cfg.PowerLimiter_LowerPowerLimit ≤ l ∧ l ≤ cfg.PowerLimiter_UpperPowerLimit)
    ∧ (n < cfg.PowerLimiter_LowerPowerLimit →
        (∀ l, InverterCommand.activePowerLimit l
            ∉ (PowerLimiterClass.setNewPowerLimit cfg e s n).1)
        ∧ (InverterCommand.powerControl false
              ∈ (PowerLimiterClass.setNewPowerLimit cfg e s n).1
            ↔ e.isProducing = true)) := by
  unfold PowerLimiterClass.setNewPowerLimit
  dsimp only
  constructor
  · intro l hl
    split_ifs at hl <;> simp_all <;> omega
  · intro hn
    constructor
    · intro l hl
      split_ifs at hl <;> simp_all <;> omega
    · constructor
      · intro hl
        split_ifs at hl <;> simp_all
      · intro hp
        split_ifs <;> simp_all

/-- Counterexample to C2 as stated: a requested limit of 10 W below the
50 W floor while the inverter is not producing results in no command at
all — in particular no stop command is sent. -/
theorem setNewPowerLimit_substop_claim_false :
    (10 : ℤ) < cfgSample.PowerLimiter_LowerPowerLimit
    ∧ (PowerLimiterClass.setNewPowerLimit cfgSample
        { envSample with isProducing := false } plSample 10).1 = [] := by
  with_unfolding_all decide

/-- Witness for C2 (amended): a 500 W request is transmitted and lies
within bounds; a 10 W request while producing yields a stop command and no
limit command. -/
theorem setNewPowerLimit_bounds_witness :
    (cfgSample.PowerLimiter_LowerPowerLimit ≤ 500
      ∧ (500 : ℤ) ≤ cfgSample.PowerLimiter_UpperPowerLimit)
    ∧ InverterCommand.powerControl false
        ∈ (PowerLimiterClass.setNewPowerLimit cfgSample envSample plSample 10).1 := by
  refine ⟨(setNewPowerLimit_bounds cfgSample envSample plSample 500).1 500
      (by with_unfolding_all decide), ?_⟩
  exact (((setNewPowerLimit_bounds cfgSample envSample plSample 10).2
      (by with_unfolding_all decide)).2).mpr (by with_unfolding_all decide)


/-- Helper: `setNewPowerLimit` does not touch the state-machine variable. -/
theorem setNewPowerLimit_plState (cfg : CONFIG_T) (e : PLEnv) (s : PLState)
    (n : ℤ) : (PowerLimiterClass.setNewPowerLimit cfg e s n).2.plState = s.plState :=
  rfl

/-- Helper: `setNewPowerLimit` does not touch the discharge flag. -/
theorem setNewPowerLimit_bde (cfg : CONFIG_T) (e : PLEnv) (s : PLState)
    (n : ℤ) :
    (PowerLimiterClass.setNewPowerLimit cfg e s n).2.batteryDischargeEnabled
      = s.batteryDischargeEnabled :=
  rfl

/-- Helper: the discharge-mode evaluation does not touch the state-machine
variable. -/
theorem updateBatteryDischargeEnabled_plState (cfg : CONFIG_T) (e : PLEnv)
    (s : PLState) :
    (PowerLimiterClass.updateBatteryDischargeEnabled cfg e s).plState = s.plState := by
  unfold PowerLimiterClass.updateBatteryDischargeEnabled
  dsimp only
  split_ifs <;> rfl

/-- Helper: the solar ramp does not touch the state-machine variable. -/
theorem updateMpptPercent_plState (e : PLEnv) (s : PLState) :
    (PowerLimiterClass.updateMpptPercent e s).plState = s.plState :=
  rfl

/-- Helper: the solar ramp does not touch the discharge flag. -/
theorem updateMpptPercent_bde (e : PLEnv) (s : PLState) :
    (PowerLimiterClass.updateMpptPercent e s).batteryDischargeEnabled
      = s.batteryDischargeEnabled :=
  rfl

/-- Helper: after the main loop body the state variable is `ACTIVE` if it
was `SHUTDOWN`, unchanged otherwise. -/
theorem loopMain_plState (cfg : CONFIG_T) (e : PLEnv) (s : PLState) :
    (PowerLimiterClass.loopMain cfg e s).1.plState
      = (if s.plState = plStates.SHUTDOWN then plStates.ACTIVE else s.plState) := by
  unfold PowerLimiterClass.loopMain
  dsimp only
  split_ifs with h1 h2 h3 <;>
    simp [setNewPowerLimit_plState, updateMpptPercent_plState,
      updateBatteryDischargeEnabled_plState, h1]

/-- Helper: the discharge flag after the main loop body equals the flag
after the discharge-mode evaluation. -/
theorem loopMain_bde (cfg : CONFIG_T) (e : PLEnv) (s : PLState) :
    (PowerLimiterClass.loopMain cfg e s).1.batteryDischargeEnabled
      = (PowerLimiterClass.updateBatteryDischargeEnabled cfg e
          (if s.plState = plStates.SHUTDOWN then
            { s with plState := plStates.ACTIVE }
          else s)).batteryDischargeEnabled := by
  unfold PowerLimiterClass.loopMain
  dsimp only
  split_ifs with h1 h2 h3 <;>
    simp [setNewPowerLimit_bde, updateMpptPercent_bde, h1]

/-- C3: the loop latches `SHUTDOWN` only when the limiter is disabled by
configuration and the inverter is not producing; when it is disabled while
the inverter is still producing, the tick sends a stop command and leaves
the state variable unchanged.  The controller therefore never enters
`SHUTDOWN` while the inverter is producing. -/
theorem shutdown_latch (cfg : CONFIG_T) (e : PLEnv) (s : PLState) :
    ((PowerLimiterClass.loop cfg e s).1.plState = plStates.SHUTDOWN →
        s.plState = plStates.SHUTDOWN
        ∨ (cfg.PowerLimiter_Enabled = false ∧ e.isProducing = false))
    ∧ (cfg.PowerLimiter_Enabled = false → s.plState ≠ plStates.SHUTDOWN →
        e.isProducing = true → guardsPass cfg e s = true →
        (PowerLimiterClass.loop cfg e s).1.plState = s.plState
        ∧ (PowerLimiterClass.loop cfg e s).2 = [InverterCommand.powerControl false]) := by
  constructor
  · intro h
    unfold PowerLimiterClass.loop at h
    dsimp only at h
    split_ifs at h with h1 h2 h3 h4 h5 h6 <;>
    first
    | exact Or.inl h
    | exact Or.inr ⟨by simpa using h3.1, by simpa using h4⟩
    | (rw [loopMain_plState] at h
       split_ifs at h with hs <;>
         first
         | exact Or.inl h
         | exact Or.inl hs
         | exact absurd h (by decide))
  · intro hdis hnsd hprod hg
    simp only [guardsPass, Bool.and_eq_true, decide_eq_true_eq] at hg
    obtain ⟨⟨⟨⟨hpm, hri⟩, hc1⟩, hc2⟩, hre⟩ := hg
    unfold PowerLimiterClass.loop
    rw [if_neg (by simp [hpm, hri, hc1, hc2])]
    dsimp only
    rw [if_neg (by simp [hre]), if_pos ⟨by simp [hdis], hnsd⟩, if_pos hprod]
    exact ⟨rfl, rfl⟩

/-- Witness for C3: with the limiter disabled, a non-producing inverter
latches `SHUTDOWN` (first part applied at that tick), and a producing
inverter receives a stop command while the state stays `ACTIVE`. -/
theorem shutdown_latch_witness :
    (plSample.plState = plStates.SHUTDOWN
      ∨ ({ cfgSample with PowerLimiter_Enabled := false }.PowerLimiter_Enabled = false
          ∧ ({ envSample with isProducing := false }).isProducing = false))
    ∧ ((PowerLimiterClass.loop { cfgSample with PowerLimiter_Enabled := false }
          envSample plSample).1.plState = plSample.plState
        ∧ (PowerLimiterClass.loop { cfgSample with PowerLimiter_Enabled := false }
            envSample plSample).2 = [InverterCommand.powerControl false]) := by
  constructor
  · exact (shutdown_latch { cfgSample with PowerLimiter_Enabled := false }
      { envSample with isProducing := false } plSample).1 (by with_unfolding_all decide)
  · exact (shutdown_latch { cfgSample with PowerLimiter_Enabled := false }
      envSample plSample).2 (by with_unfolding_all decide) (by with_unfolding_all decide)
      (by with_unfolding_all decide) (by with_unfolding_all decide)

/-- Helper: when the stop threshold is not reached and direct solar is
unusable (or the strategy is `EMPTY_AT_NIGHT`), the discharge-mode
evaluation sets the flag. -/
theorem updateBatteryDischargeEnabled_force (cfg : CONFIG_T) (e : PLEnv)
    (s : PLState)
    (hstop : PowerLimiterClass.isStopThresholdReached cfg e = false)
    (hforce : PowerLimiterClass.canUseDirectSolarPower cfg e = false
        ∨ cfg.PowerLimiter_BatteryDrainStategy = batDrainStrategy.EMPTY_AT_NIGHT) :
    (PowerLimiterClass.updateBatteryDischargeEnabled cfg e s).batteryDischargeEnabled
      = true := by
  unfold PowerLimiterClass.updateBatteryDischargeEnabled
  dsimp only
  by_cases hstart : PowerLimiterClass.isStartThresholdReached cfg e = true
      ∧ cfg.PowerLimiter_BatteryDrainStategy = batDrainStrategy.EMPTY_WHEN_FULL
  · rw [if_pos hstart]
  · rw [if_neg hstart, if_neg (by simp [hstop]), if_pos (by
      rcases hforce with h | h
      · exact Or.inl (by simp [h])
      · exact Or.inr h)]

/-- C4 (amended): on every tick that reaches the discharge-mode evaluation,
if the stop threshold is NOT reached and direct solar power cannot be used
(or the drain strategy is `EMPTY_AT_NIGHT`), the battery-discharge flag is
true after the tick.  (When the stop threshold is reached it takes
precedence and the flag is cleared instead.) -/
theorem discharge_force_enabled (cfg : CONFIG_T) (e : PLEnv) (s : PLState)
    (hreach : reachesEvaluation cfg e s = true)
    (hstop : PowerLimiterClass.isStopThresholdReached cfg e = false)
    (hforce : PowerLimiterClass.canUseDirectSolarPower cfg e = false
        ∨ cfg.PowerLimiter_BatteryDrainStategy = batDrainStrategy.EMPTY_AT_NIGHT) :
    (PowerLimiterClass.loop cfg e s).1.batteryDischargeEnabled = true := by
  simp only [reachesEvaluation, guardsPass, Bool.and_eq_true,
    decide_eq_true_eq] at hreach
  obtain ⟨⟨⟨⟨⟨⟨hpm, hri⟩, hc1⟩, hc2⟩, hre⟩, hen⟩, hstats⟩ := hreach
  unfold PowerLimiterClass.loop
  rw [if_neg (by simp [hpm, hri, hc1, hc2])]
  dsimp only
  rw [if_neg (by simp [hre]), if_neg (by simp [hen]), if_neg (by simp [hen]),
    if_neg hstats, loopMain_bde]
  exact updateBatteryDischargeEnabled_force cfg e _ hstop hforce

/-- Counterexample to C4 as stated: stop threshold reached (SoC 10 % ≤
20 %), direct solar unusable and strategy `EMPTY_AT_NIGHT`, yet after the
tick the flag is false — the stop check takes precedence over the
force-enable rule. -/
theorem discharge_force_enabled_claim_false :
    PowerLimiterClass.canUseDirectSolarPower
      { cfgSample with PowerLimiter_BatteryDrainStategy := batDrainStrategy.EMPTY_AT_NIGHT }
      { envSample with stateOfCharge := 10 } = false
    ∧ reachesEvaluation
      { cfgSample with PowerLimiter_BatteryDrainStategy := batDrainStrategy.EMPTY_AT_NIGHT }
      { envSample with stateOfCharge := 10 } plSample = true
    ∧ PowerLimiterClass.isStopThresholdReached
      { cfgSample with PowerLimiter_BatteryDrainStategy := batDrainStrategy.EMPTY_AT_NIGHT }
      { envSample with stateOfCharge := 10 } = true
    ∧ (PowerLimiterClass.loop
      { cfgSample with PowerLimiter_BatteryDrainStategy := batDrainStrategy.EMPTY_AT_NIGHT }
      { envSample with stateOfCharge := 10 } plSample).1.batteryDischargeEnabled = false := by
  with_unfolding_all decide

/-- Witness for C4 (amended): with SoC 55 % (stop not reached), solar
pass-through disabled and strategy `EMPTY_AT_NIGHT`, a tick flips the
discharge flag from false to true. -/
theorem discharge_force_enabled_witness :
    (PowerLimiterClass.loop
      { cfgSample with PowerLimiter_BatteryDrainStategy := batDrainStrategy.EMPTY_AT_NIGHT }
      envSample
      { plSample with batteryDischargeEnabled := false }).1.batteryDischargeEnabled
      = true :=
  discharge_force_enabled
    { cfgSample with PowerLimiter_BatteryDrainStategy := batDrainStrategy.EMPTY_AT_NIGHT }
    envSample { plSample with batteryDischargeEnabled := false }
    (by with_unfolding_all decide) (by with_unfolding_all decide)
    (Or.inl (by with_unfolding_all decide))

/-- Helper: reaching the stop threshold clears the discharge flag (when the
start threshold is not simultaneously reached). -/
theorem updateBatteryDischargeEnabled_stop (cfg : CONFIG_T) (e : PLEnv)
    (s : PLState)
    (hstop : PowerLimiterClass.isStopThresholdReached cfg e = true)
    (hstart : PowerLimiterClass.isStartThresholdReached cfg e = false) :
    (PowerLimiterClass.updateBatteryDischargeEnabled cfg e s).batteryDischargeEnabled
      = false := by
  unfold PowerLimiterClass.updateBatteryDischargeEnabled
  dsimp only
  rw [if_neg (by simp [hstart]), if_pos (by simp [hstop])]

/-- Helper: with usable solar, strategy `EMPTY_WHEN_FULL` and neither
threshold reached, the discharge-mode evaluation leaves the flag alone. -/
theorem updateBatteryDischargeEnabled_preserve (cfg : CONFIG_T) (e : PLEnv)
    (s : PLState)
    (hcan : PowerLimiterClass.canUseDirectSolarPower cfg e = true)
    (hstop : PowerLimiterClass.isStopThresholdReached cfg e = false)
    (hstart : PowerLimiterClass.isStartThresholdReached cfg e = false)
    (hstrat : cfg.PowerLimiter_BatteryDrainStategy = batDrainStrategy.EMPTY_WHEN_FULL) :
    (PowerLimiterClass.updateBatteryDischargeEnabled cfg e s).batteryDischargeEnabled
      = s.batteryDischargeEnabled := by
  unfold PowerLimiterClass.updateBatteryDischargeEnabled
  dsimp only
  rw [if_neg (by simp [hstart]), if_neg (by simp [hstop]),
    if_neg (by simp [hcan, hstrat])]

/-- Helper: the start threshold under `EMPTY_WHEN_FULL` sets the flag. -/
theorem updateBatteryDischargeEnabled_start (cfg : CONFIG_T) (e : PLEnv)
    (s : PLState)
    (hstart : PowerLimiterClass.isStartThresholdReached cfg e = true)
    (hstrat : cfg.PowerLimiter_BatteryDrainStategy = batDrainStrategy.EMPTY_WHEN_FULL) :
    (PowerLimiterClass.updateBatteryDischargeEnabled cfg e s).batteryDischargeEnabled
      = true := by
  unfold PowerLimiterClass.updateBatteryDischargeEnabled
  dsimp only
  rw [if_pos ⟨hstart, hstrat⟩]

/-- Helper: a tick on which neither threshold is reached, solar is usable
and the strategy is `EMPTY_WHEN_FULL` leaves the discharge flag unchanged,
whatever the guards do. -/
theorem loop_preserves_bde (cfg : CONFIG_T) (e : PLEnv) (s : PLState)
    (hcan : PowerLimiterClass.canUseDirectSolarPower cfg e = true)
    (hstop : PowerLimiterClass.isStopThresholdReached cfg e = false)
    (hstart : PowerLimiterClass.isStartThresholdReached cfg e = false)
    (hstrat : cfg.PowerLimiter_BatteryDrainStategy = batDrainStrategy.EMPTY_WHEN_FULL) :
    (PowerLimiterClass.loop cfg e s).1.batteryDischargeEnabled
      = s.batteryDischargeEnabled := by
  unfold PowerLimiterClass.loop
  dsimp only
  split_ifs <;>
    first
    | rfl
    | (rw [loopMain_bde,
        updateBatteryDischargeEnabled_preserve cfg e _ hcan hstop hstart hstrat]
       split_ifs <;> rfl)

/-- Helper: folding preserving ticks keeps the discharge flag. -/
theorem foldl_loop_preserves_bde (cfg : CONFIG_T) (es : List PLEnv)
    (s : PLState)
    (hstrat : cfg.PowerLimiter_BatteryDrainStategy = batDrainStrategy.EMPTY_WHEN_FULL)
    (hmid : ∀ e ∈ es, PowerLimiterClass.canUseDirectSolarPower cfg e = true
        ∧ PowerLimiterClass.isStopThresholdReached cfg e = false
        ∧ PowerLimiterClass.isStartThresholdReached cfg e = false) :
    (List.foldl (fun t e => (PowerLimiterClass.loop cfg e t).1) s es).batteryDischargeEnabled
      = s.batteryDischargeEnabled := by
  induction es generalizing s with
  | nil => rfl
  | cons e es ih =>
    simp only [List.foldl_cons]
    obtain ⟨hcan, hstop, hstart⟩ := hmid e (List.mem_cons_self e es)
    rw [ih _ fun x hx => hmid x (List.mem_cons_of_mem _ hx),
      loop_preserves_bde cfg e s hcan hstop hstart hstrat]

/-- Helper: a tick that reaches the evaluation and sees the stop threshold
(and not the start threshold) clears the discharge flag. -/
theorem loop_stop_disables (cfg : CONFIG_T) (e : PLEnv) (s : PLState)
    (hreach : reachesEvaluation cfg e s = true)
    (hstop : PowerLimiterClass.isStopThresholdReached cfg e = true)
    (hstart : PowerLimiterClass.isStartThresholdReached cfg e = false) :
    (PowerLimiterClass.loop cfg e s).1.batteryDischargeEnabled = false := by
  simp only [reachesEvaluation, guardsPass, Bool.and_eq_true,
    decide_eq_true_eq] at hreach
  obtain ⟨⟨⟨⟨⟨⟨hpm, hri⟩, hc1⟩, hc2⟩, hre⟩, hen⟩, hstats⟩ := hreach
  unfold PowerLimiterClass.loop
  rw [if_neg (by simp [hpm, hri, hc1, hc2])]
  dsimp only
  rw [if_neg (by simp [hre]), if_neg (by simp [hen]), if_neg (by simp [hen]),
    if_neg hstats, loopMain_bde]
  exact updateBatteryDischargeEnabled_stop cfg e _ hstop hstart

/-- Helper: a tick that reaches the evaluation and sees the start threshold
under `EMPTY_WHEN_FULL` sets the discharge flag. -/
theorem loop_start_enables (cfg : CONFIG_T) (e : PLEnv) (s : PLState)
    (hreach : reachesEvaluation cfg e s = true)
    (hstart : PowerLimiterClass.isStartThresholdReached cfg e = true)
    (hstrat : cfg.PowerLimiter_BatteryDrainStategy = batDrainStrategy.EMPTY_WHEN_FULL) :
    (PowerLimiterClass.loop cfg e s).1.batteryDischargeEnabled = true := by
  simp only [reachesEvaluation, guardsPass, Bool.and_eq_true,
    decide_eq_true_eq] at hreach
  obtain ⟨⟨⟨⟨⟨⟨hpm, hri⟩, hc1⟩, hc2⟩, hre⟩, hen⟩, hstats⟩ := hreach
  unfold PowerLimiterClass.loop
  rw [if_neg (by simp [hpm, hri, hc1, hc2])]
  dsimp only
  rw [if_neg (by simp [hre]), if_neg (by simp [hen]), if_neg (by simp [hen]),
    if_neg hstats, loopMain_bde]
  exact updateBatteryDischargeEnabled_start cfg e _ hstart hstrat

/-- C5: under `EMPTY_WHEN_FULL` with direct solar usable on every
intermediate tick, once a tick observing the stop threshold clears the
discharge flag, the flag stays false across every subsequent tick on which
neither threshold is reached, and the first tick on which the start
threshold is reached sets it back to true. -/
theorem discharge_hysteresis_latch (cfg : CONFIG_T) (s0 : PLState)
    (e0 : PLEnv) (es : List PLEnv) (e1 : PLEnv)
    (hstrat : cfg.PowerLimiter_BatteryDrainStategy = batDrainStrategy.EMPTY_WHEN_FULL)
    (hreach0 : reachesEvaluation cfg e0 s0 = true)
    (hstop0 : PowerLimiterClass.isStopThresholdReached cfg e0 = true)
    (hstart0 : PowerLimiterClass.isStartThresholdReached cfg e0 = false)
    (hmid : ∀ e ∈ es, PowerLimiterClass.canUseDirectSolarPower cfg e = true
        ∧ PowerLimiterClass.isStopThresholdReached cfg e = false
        ∧ PowerLimiterClass.isStartThresholdReached cfg e = false)
    (hreach1 : reachesEvaluation cfg e1
        (List.foldl (fun t e => (PowerLimiterClass.loop cfg e t).1)
          (PowerLimiterClass.loop cfg e0 s0).1 es) = true)
    (hstart1 : PowerLimiterClass.isStartThresholdReached cfg e1 = true) :
    (PowerLimiterClass.loop cfg e0 s0).1.batteryDischargeEnabled = false
    ∧ (List.foldl (fun t e => (PowerLimiterClass.loop cfg e t).1)
        (PowerLimiterClass.loop cfg e0 s0).1 es).batteryDischargeEnabled = false
    ∧ (PowerLimiterClass.loop cfg e1
        (List.foldl (fun t e => (PowerLimiterClass.loop cfg e t).1)
          (PowerLimiterClass.loop cfg e0 s0).1 es)).1.batteryDischargeEnabled = true := by
  have h0 := loop_stop_disables cfg e0 s0 hreach0 hstop0 hstart0
  have hfold := foldl_loop_preserves_bde cfg es (PowerLimiterClass.loop cfg e0 s0).1
    hstrat hmid
  exact ⟨h0, hfold.trans h0, loop_start_enables cfg e1 _ hreach1 hstart1 hstrat⟩

/-- Witness for C5: SoC 19 % clears the flag, a tick at SoC 50 % keeps it
false, and a tick at SoC 91 % sets it. -/
theorem discharge_hysteresis_latch_witness :
    (PowerLimiterClass.loop
        { cfgSample with PowerLimiter_SolarPassThroughEnabled := true }
        { envSample with stateOfCharge := 19, vePPV := 600 }
        plSample).1.batteryDischargeEnabled = false
    ∧ (List.foldl (fun t e => (PowerLimiterClass.loop
          { cfgSample with PowerLimiter_SolarPassThroughEnabled := true } e t).1)
        (PowerLimiterClass.loop
          { cfgSample with PowerLimiter_SolarPassThroughEnabled := true }
          { envSample with stateOfCharge := 19, vePPV := 600 } plSample).1
        [{ envSample with stateOfCharge := 50, vePPV := 600 }]).batteryDischargeEnabled = false
    ∧ (PowerLimiterClass.loop
        { cfgSample with PowerLimiter_SolarPassThroughEnabled := true }
        { envSample with stateOfCharge := 91, vePPV := 600 }
        (List.foldl (fun t e => (PowerLimiterClass.loop
            { cfgSample with PowerLimiter_SolarPassThroughEnabled := true } e t).1)
          (PowerLimiterClass.loop
            { cfgSample with PowerLimiter_SolarPassThroughEnabled := true }
            { envSample with stateOfCharge := 19, vePPV := 600 } plSample).1
          [{ envSample with stateOfCharge := 50, vePPV := 600 }])).1.batteryDischargeEnabled
      = true :=
  discharge_hysteresis_latch
    { cfgSample with PowerLimiter_SolarPassThroughEnabled := true }
    plSample
    { envSample with stateOfCharge := 19, vePPV := 600 }
    [{ envSample with stateOfCharge := 50, vePPV := 600 }]
    { envSample with stateOfCharge := 91, vePPV := 600 }
    (by with_unfolding_all decide) (by with_unfolding_all decide)
    (by with_unfolding_all decide) (by with_unfolding_all decide)
    (by with_unfolding_all decide) (by with_unfolding_all decide)
    (by with_unfolding_all decide)

/-- C7 (amended): with fresh power-meter data and a rounded total load
inside the `[target - hysteresis, target + hysteresis]` band,
`calcPowerLimit` returns exactly the stored last-requested limit — the
limit most recently transmitted to the inverter — and feeding that value
back to `setNewPowerLimit` transmits no absolute limit command and leaves
the stored limit unchanged.  (This equals the previous invocation's return
value only when that value was actually transmitted.) -/
theorem calcPowerLimit_reuse_band (cfg : CONFIG_T) (e : PLEnv) (s : PLState)
    (b : Bool)
    (hfresh : ¬ msub e.millis e.lastPowerMeterUpdate > 30 * 1000)
    (hlo : roundAway e.powerTotal ≥ cfg.PowerLimiter_TargetPowerConsumption
        - cfg.PowerLimiter_TargetPowerConsumptionHysteresis)
    (hhi : roundAway e.powerTotal ≤ cfg.PowerLimiter_TargetPowerConsumption
        + cfg.PowerLimiter_TargetPowerConsumptionHysteresis) :
    PowerLimiterClass.calcPowerLimit cfg e s b = s.lastRequestedPowerLimit
    ∧ (∀ l, InverterCommand.activePowerLimit l
        ∉ (PowerLimiterClass.setNewPowerLimit cfg e s s.lastRequestedPowerLimit).1)
    ∧ (PowerLimiterClass.setNewPowerLimit cfg e s
        s.lastRequestedPowerLimit).2.lastRequestedPowerLimit
      = s.lastRequestedPowerLimit := by
  refine ⟨?_, ?_, ?_⟩
  · unfold PowerLimiterClass.calcPowerLimit
    dsimp only
    rw [if_neg hfresh, if_pos ⟨hlo, hhi⟩]
  · intro l hl
    unfold PowerLimiterClass.setNewPowerLimit at hl
    dsimp only at hl
    split_ifs at hl <;> simp_all <;> omega
  · unfold PowerLimiterClass.setNewPowerLimit
    dsimp only
    split_ifs <;> simp_all <;> omega

/-- Counterexample to C7 as stated: the previous invocation of
`calcPowerLimit` returns 800 (clamped at the upper bound), but 800 is never
transmitted (the transmit guard requires a limit strictly below the upper
bound), so the stored limit stays 0; the next in-band invocation returns 0,
not the previously returned 800. -/
theorem calcPowerLimit_reuse_band_claim_false :
    PowerLimiterClass.calcPowerLimit cfgSample
      { envSample with powerTotal := 2000 } plSample false = 800
    ∧ PowerLimiterClass.calcPowerLimit cfgSample
        { envSample with powerTotal := 500 }
        (PowerLimiterClass.setNewPowerLimit cfgSample
          { envSample with powerTotal := 2000 } plSample 800).2 false = 0
    ∧ ¬ msub envSample.millis envSample.lastPowerMeterUpdate > 30 * 1000
    ∧ roundAway (500 : ℚ) ≥ cfgSample.PowerLimiter_TargetPowerConsumption
        - cfgSample.PowerLimiter_TargetPowerConsumptionHysteresis
    ∧ roundAway (500 : ℚ) ≤ cfgSample.PowerLimiter_TargetPowerConsumption
        + cfgSample.PowerLimiter_TargetPowerConsumptionHysteresis
    ∧ (0 : ℤ) ≠ 800 := by
  with_unfolding_all decide

/-- Witness for C7 (amended): an in-band reading returns the stored
last-requested limit (600 W) and re-issuing it transmits nothing. -/
theorem calcPowerLimit_reuse_band_witness :
    PowerLimiterClass.calcPowerLimit cfgSample
      { envSample with powerTotal := 500 }
      { plSample with lastRequestedPowerLimit := 600 } false = 600
    ∧ (PowerLimiterClass.setNewPowerLimit cfgSample
        { envSample with powerTotal := 500 }
        { plSample with lastRequestedPowerLimit := 600 }
        600).2.lastRequestedPowerLimit = 600 := by
  have h := calcPowerLimit_reuse_band cfgSample
    { envSample with powerTotal := 500 }
    { plSample with lastRequestedPowerLimit := 600 } false
    (by with_unfolding_all decide) (by with_unfolding_all decide)
    (by with_unfolding_all decide)
  exact ⟨h.1, h.2.2⟩
